import Mathlib

set_option maxRecDepth 100000

/-!
Verification of `dbquery.py` from the WeakLensingDeblending repository.

The script is a linear ETL pipeline: open an output file, validate an
RA/DEC window, build a column list and a stored-procedure query, execute
it, then sanitize (NULL-substitute), clip and write each row, releasing
the database session/engine in a `finally` block.

The embedding below follows `main` (and its helper `addColumns`) line by
line.  Numeric CLI values and row values are modelled as rationals; the
real-valued search-radius computation (which uses `math.sqrt`) is
modelled over the reals.  Python string primitives used by the script
(split, join, replace, and percent formatting of a pattern) are
modelled by structurally recursive character-level functions so that all
string computations evaluate inside the kernel.

The observable behaviour of `main` is modelled as a trace of effect
events (file open, header write, engine/session creation, query
execution, row writes, cleanup, file close) together with the return
value of `main` and whether an exception propagated.
-/

/-- The string constants used as arguments below (kept as named
definitions). -/
def commaS : String := ","

/-- A single space, the separator used for output lines. -/
def spaceS : String := " "

/-- The empty string. -/
def emptyS : String := ""

/-- The column key `ra` (dbquery.py line 117). -/
def raKey : String := "ra"

/-- The column key `dec` (dbquery.py line 120). -/
def decKey : String := "dec"

/-- The column key `redshift`. -/
def redshiftKey : String := "redshift"

/-- The pattern `galtileid,` (with its trailing comma) removed from
the column string (dbquery.py line 77). -/
def gtidCommaS : String := "galtileid,"

/-- The bare identifier column name `galtileid`. -/
def gtidS : String := "galtileid"

/-- Model of Python `p % t` for a pattern containing one `%s` spec:
the first occurrence of `%s` in the character list is replaced by `t`. -/
def pctAux (t : List Char) : List Char → List Char
  | [] => []
  | c :: rest =>
    match rest with
    | [] => [c]
    | c2 :: rest2 =>
      if c = '%' ∧ c2 = 's' then t ++ rest2 else c :: pctAux t rest

/-- Model of Python `p % t` string formatting (one `%s` in `p`). -/
def pctFormat (p t : String) : String := ⟨pctAux t.data p.data⟩

/-- Model of Python `s.split(sep)` for a one-character separator:
accumulate characters until the separator, emitting a field at each
separator and at the end. -/
def splitAux (sep : Char) : List Char → List Char → List (List Char)
  | [], acc => [acc.reverse]
  | c :: rest, acc =>
    if c = sep then acc.reverse :: splitAux sep rest []
    else splitAux sep rest (c :: acc)

/-- Model of Python `s.split(sep)` (one-character separator). -/
def pySplit (s : String) (sep : Char) : List String :=
  (splitAux sep s.data []).map (fun cs => ⟨cs⟩)

/-- Model of Python `sep.join(parts)`. -/
def pyJoin (sep : String) : List String → String
  | [] => emptyS
  | [s] => s
  | s :: rest => s ++ sep ++ pyJoin sep rest

/-- Model of the Python replace of `pat` by the empty string, for a
non-empty `pat`:
every non-overlapping occurrence of `pat` is removed, scanning left to
right.  The `Nat` argument is fuel (the length of the scanned list
suffices, since each step consumes at least one character). -/
def eraseSubFuel (pat : List Char) : Nat → List Char → List Char
  | _, [] => []
  | 0, s => s
  | fuel + 1, c :: rest =>
    if pat.isPrefixOf (c :: rest) then
      eraseSubFuel pat fuel (rest.drop (pat.length - 1))
    else
      c :: eraseSubFuel pat fuel rest

/-- Model of the Python replace of `pat` by the empty string in `s`,
for non-empty `pat`. -/
def pyReplaceEmpty (s pat : String) : String :=
  ⟨eraseSubFuel pat.data s.data.length s.data⟩

/-- Function `addColumns` from dbquery.py lines 53-57: starting from the empty
string, for each pattern append a comma followed by the comma-join of
the pattern formatted at each type. -/
def addColumns (patterns : List String) (types : List String) : String :=
  patterns.foldl
    (fun text p => text ++ commaS ++ pyJoin commaS (types.map (fun t => pctFormat p t)))
    emptyS

/-- The column string built in dbquery.py lines 61-69.  The last call
iterates over the characters of the Python string `"ugrizy"`. -/
def columns : String :=
  "galtileid,ra,dec,redshift"
    ++ addColumns ["fluxnorm_%s"] ["bulge", "disk", "agn"]
    ++ addColumns ["a_%s", "b_%s"] ["b", "d"]
    ++ addColumns ["pa_%s"] ["bulge", "disk"]
    ++ addColumns ["%s_ab"] ["u", "g", "r", "i", "z", "y"]

/-- Value `column_names` from dbquery.py line 77: `columns` with every
occurrence of `galtileid,` removed. -/
def column_names : String := pyReplaceEmpty columns gtidCommaS

/-- Value `clist` from dbquery.py line 88: `columns` split on commas. -/
def clist : List String := pySplit columns ','

/-- The header line written to the output file in dbquery.py line 89:
the space-join of `clist`. -/
def headerLine : String := pyJoin spaceS clist

/-- The command-line arguments of dbquery.py (lines 21-36), with the
numeric flags as rationals. -/
structure Args where
  verbose : Bool
  output : String
  dec_min : ℚ
  dec_max : ℚ
  ra_min : ℚ
  ra_max : ℚ
  null_sub : ℚ
deriving DecidableEq

/-- A result-set row: a mapping from column name to a value, where
`none` models SQL NULL. -/
abbrev Row : Type := String → Option ℚ

/-- The NULL counters (`nulls` in dbquery.py line 91).  The Python dict
that creates an entry at `0` on first use is modelled as a total
function that is `0` wherever the dict has no entry. -/
abbrev Counters : Type := String → ℕ

/-- The NULL-substitution loop of dbquery.py lines 110-115: for each
column of `cols` in order, if the value of the row there is NULL, bump
the counter of that column and overwrite the value with `nullSub`. -/
def sanitizeLoop (nullSub : ℚ) : List String → Row → Counters → Row × Counters
  | [], row, nulls => (row, nulls)
  | col :: cols, row, nulls =>
    if row col = none then
      sanitizeLoop nullSub cols
        (fun x => if x = col then some nullSub else row x)
        (fun x => if x = col then nulls x + 1 else nulls x)
    else
      sanitizeLoop nullSub cols row nulls

/-- Closed form of the sanitized row: a column in `clist` whose value
was NULL carries the substitute, every other column is unchanged
(proved equal to the result of the loop in `sanitizeLoop_fst_clist`). -/
def sanitizedRow (nullSub : ℚ) (row : Row) : Row :=
  fun c => if c ∈ clist ∧ row c = none then some nullSub else row c

/-- RA recentering, dbquery.py lines 118-119: subtract 360 when the
value exceeds 180. -/
def recenter (ra : ℚ) : ℚ := if ra > 180 then ra - 360 else ra

/-- The out-of-window test of dbquery.py line 121. -/
abbrev outsideWindow (a : Args) (ra dec : ℚ) : Prop :=
  ra < a.ra_min ∨ ra > a.ra_max ∨ dec < a.dec_min ∨ dec > a.dec_max

/-- Whether a result row gets clipped: the out-of-window test applied
to the recentered `ra` and the raw `dec` of the sanitized row. -/
def clipPred (a : Args) (r : Row) : Bool :=
  decide (outsideWindow a (recenter (Option.getD (sanitizedRow a.null_sub r raKey) 0))
    (Option.getD (sanitizedRow a.null_sub r decKey) 0))

/-- The values placed on an output line (dbquery.py line 125): the
value of the row at each column of `clist` in order.  (The decimal rendering
of `str(...)` is abstracted to the value itself; after sanitization the
`getD 0` default is never taken for columns of `clist`.) -/
def rowValues (row : Row) : List ℚ :=
  clist.map (fun c => Option.getD (row c) 0)

/-- The observable effects of a run of `main`, in program order. -/
inductive Event : Type
  | openOutput
  | invalidWindowMsg
  | writeHeader (line : String)
  | createEngine
  | createSession
  | execute
  | writeRow (vals : List ℚ)
  | closeSession
  | disposeEngine
  | closeFile
deriving DecidableEq

/-- The row loop of dbquery.py lines 108-126: sanitize each row, clip
it (bumping the clip counter) when its recentered `ra` or raw `dec`
falls outside the window, otherwise emit a write event with its values.
Returns the write events, the final NULL counters and the final clip
count. -/
def processRows (a : Args) : List Row → Counters → ℕ → List Event × Counters × ℕ
  | [], nulls, clip => ([], nulls, clip)
  | row :: rest, nulls, clip =>
    let s := sanitizeLoop a.null_sub clist row nulls
    let ra := recenter (Option.getD (s.1 raKey) 0)
    let dec := Option.getD (s.1 decKey) 0
    if ra < a.ra_min ∨ ra > a.ra_max ∨ dec < a.dec_min ∨ dec > a.dec_max then
      processRows a rest s.2 (clip + 1)
    else
      let res := processRows a rest s.2 clip
      (Event.writeRow (rowValues s.1) :: res.1, res.2)

/-- The environment a run interacts with: whether the output file can
be opened, and the query outcome (`none`: `session.execute` raises, as
on a connection, authentication or SQL failure; `some rows`: it returns
`rows`). -/
structure Env where
  openOk : Bool
  queryRows : Option (List Row)

/-- The outcome of a run of `main`: its event trace, the value `main`
returned (`none` when it returned Python `None` or raised), and whether
an exception propagated out of `main`. -/
structure RunResult where
  trace : List Event
  ret : Option Int
  raised : Bool
deriving DecidableEq

/-- Function `main` from dbquery.py lines 19-139 as a trace function.

* Lines 39-45: the output file is opened first; on failure `main`
  prints and returns `-2` having produced no effect.
* Lines 48-51: the window is then validated; on `ra_min >= ra_max or
  dec_min >= dec_max`, `main` prints and returns `-2` — after the file
  was already opened.
* Line 89: the header is printed to the file before the `try` block.
* Lines 93-105: engine and session are created and the query executed
  inside `try`; the SQLAlchemy engine and session constructions are lazy
  constructions, so failures (connection, authentication, SQL) surface
  at `session.execute`.
* Lines 108-126: the row loop.
* Lines 135-137: the `finally` block closes the session and disposes
  the engine on both the success and the raise path; on the raise path
  the exception then propagates, so line 139 (`f.close()`) is skipped.
* `main` falls off the end, returning Python `None`. -/
def mainRun (a : Args) (env : Env) : RunResult :=
  if env.openOk = false then
    { trace := [], ret := some (-2), raised := false }
  else if a.ra_min ≥ a.ra_max ∨ a.dec_min ≥ a.dec_max then
    { trace := [Event.openOutput, Event.invalidWindowMsg], ret := some (-2), raised := false }
  else
    match env.queryRows with
    | none =>
      { trace := Event.openOutput :: Event.writeHeader headerLine :: Event.createEngine ::
          Event.createSession :: Event.execute ::
          [Event.closeSession, Event.disposeEngine],
        ret := none, raised := true }
    | some rows =>
      { trace := Event.openOutput :: Event.writeHeader headerLine :: Event.createEngine ::
          Event.createSession :: Event.execute ::
          ((processRows a rows (fun _ => 0) 0).1 ++
            [Event.closeSession, Event.disposeEngine, Event.closeFile]),
        ret := none, raised := false }

/-- The trace of everything `main` does before the `finally` cleanup,
on runs that reach the query stage. -/
def preCleanupTrace (a : Args) (env : Env) : List Event :=
  Event.openOutput :: Event.writeHeader headerLine :: Event.createEngine ::
    Event.createSession :: Event.execute ::
      (match env.queryRows with
       | none => []
       | some rows => (processRows a rows (fun _ => 0) 0).1)

/-- The process exit status produced by dbquery.py lines 142-143: the
guard calls `main()` and discards its return value, so the process
exits `0` unless an exception propagates out of `main` (a propagating
exception makes the interpreter exit non-zero, modelled as `1`). -/
def programExit (a : Args) (env : Env) : Int :=
  if (mainRun a env).raised then 1 else 0

/-- The parameters of the stored-procedure invocation built in
dbquery.py lines 81-83 (the `%f`/`%s` textual formatting is abstracted
to the parameter record). -/
structure QueryCall where
  procName : String
  RaSearch : ℝ
  DecSearch : ℝ
  apertureRadius : ℝ
  ColumnNames : String
  WhereClause : String

/-- The search radius of dbquery.py line 72:
`60 * 0.5 * math.sqrt((ra_max - ra_min) ** 2 + (dec_max - dec_min) ** 2)`. -/
noncomputable def radius (ra_min ra_max dec_min dec_max : ℝ) : ℝ :=
  60 * 0.5 * Real.sqrt ((ra_max - ra_min) ^ 2 + (dec_max - dec_min) ^ 2)

/-- The query of dbquery.py lines 81-83: the stored procedure
`GalaxySearchSpecColsConstraint2013` at the window midpoints, the
computed radius, the filtered column list of line 77, and an empty
where-clause. -/
noncomputable def query (ra_min ra_max dec_min dec_max : ℝ) : QueryCall :=
  { procName := "GalaxySearchSpecColsConstraint2013",
    RaSearch := 0.5 * (ra_min + ra_max),
    DecSearch := 0.5 * (dec_min + dec_max),
    apertureRadius := radius ra_min ra_max dec_min dec_max,
    ColumnNames := column_names,
    WhereClause := emptyS }

/-- Arguments with the window `[0,1] x [-1,1]` and the default
`null_sub = -1`. -/
def argsWin : Args :=
  { verbose := false, output := "gcat.dat",
    dec_min := -1, dec_max := 1, ra_min := 0, ra_max := 1, null_sub := -1 }

/-- Arguments with an inverted RA window (`ra_min > ra_max`). -/
def argsBadWin : Args :=
  { verbose := false, output := "gcat.dat",
    dec_min := -1, dec_max := 1, ra_min := 1, ra_max := 0, null_sub := -1 }

/-- Arguments whose window `[-179,-177] x [-1,1]` contains the
recentered image of `ra = 182`. -/
def argsWrap : Args :=
  { verbose := false, output := "gcat.dat",
    dec_min := -1, dec_max := 1, ra_min := -179, ra_max := -177, null_sub := -1 }

/-- Arguments with `--null-sub=-7` and the window `[0,1] x [-1,1]`. -/
def argsSub7 : Args :=
  { verbose := false, output := "gcat.dat",
    dec_min := -1, dec_max := 1, ra_min := 0, ra_max := 1, null_sub := -7 }

/-- A row with `ra = 182` (which recenters to `-178`), `dec = 0`, and
no NULLs. -/
def rowWrap : Row :=
  fun c => if c = raKey then some 182 else if c = decKey then some 0 else some 1

/-- A row whose `ra` is NULL, with `dec = 0` and all other columns
present. -/
def rowNullRa : Row :=
  fun c => if c = raKey then none else if c = decKey then some 0 else some 1

/-- A row inside the default window whose `redshift` is NULL. -/
def rowNullZ : Row :=
  fun c =>
    if c = redshiftKey then none
    else if c = raKey then some 1
    else if c = decKey then some 0 else some 1

/-- An environment where the output file opens and the query returns
no rows. -/
def envNoRows : Env := { openOk := true, queryRows := some [] }

/-- An environment where the output file opens and `session.execute`
raises. -/
def envRaise : Env := { openOk := true, queryRows := none }

/-- An environment where the output file cannot be opened. -/
def envNoOpen : Env := { openOk := false, queryRows := some [] }

/-- Events that touch the database (engine/session creation, query
execution). -/
def isDbEvent : Event → Bool
  | Event.createEngine => true
  | Event.createSession => true
  | Event.execute => true
  | _ => false

/-- Events that write data to the output file (the header line or a
row line). -/
def isWriteEvent : Event → Bool
  | Event.writeHeader _ => true
  | Event.writeRow _ => true
  | _ => false

/-- The row component of the NULL-substitution loop: a column of
`cols` whose value was NULL now carries the substitute, every other
column is unchanged. -/
theorem sanitizeLoop_fst (ns : ℚ) (cols : List String) (row : Row) (nulls : Counters) :
    (sanitizeLoop ns cols row nulls).1 =
      fun c => if c ∈ cols ∧ row c = none then some ns else row c := by
  induction cols generalizing row nulls with
  | nil => funext c; simp [sanitizeLoop]
  | cons d cs ih =>
    by_cases hd : row d = none
    · rw [sanitizeLoop, if_pos hd, ih]
      funext c
      by_cases hcd : c = d
      · subst hcd; simp [hd]
      · simp [hcd]
    · rw [sanitizeLoop, if_neg hd, ih]
      funext c
      by_cases hcd : c = d
      · subst hcd; simp [hd]
      · simp [hcd]

/-- The counter component of the NULL-substitution loop: the counter
of each column grows by one exactly when that column is in `cols` and its
value was NULL. -/
theorem sanitizeLoop_snd (ns : ℚ) (cols : List String) (row : Row) (nulls : Counters)
    (c : String) :
    (sanitizeLoop ns cols row nulls).2 c =
      nulls c + (if c ∈ cols ∧ row c = none then 1 else 0) := by
  induction cols generalizing row nulls with
  | nil => simp [sanitizeLoop]
  | cons d cs ih =>
    by_cases hd : row d = none
    · rw [sanitizeLoop, if_pos hd, ih]
      by_cases hcd : c = d
      · subst hcd; simp [hd]
      · simp [hcd]
    · rw [sanitizeLoop, if_neg hd, ih]
      by_cases hcd : c = d
      · subst hcd; simp [hd]
      · simp [hcd]

/-- Over the full column list, the sanitizer loop computes
`sanitizedRow`. -/
theorem sanitizeLoop_fst_clist (ns : ℚ) (row : Row) (nulls : Counters) :
    (sanitizeLoop ns clist row nulls).1 = sanitizedRow ns row :=
  sanitizeLoop_fst ns clist row nulls

/-- The final clip count of the row loop: the starting count plus the
number of rows whose sanitized, recentered coordinates fall outside the
window. -/
theorem processRows_clip (a : Args) (rows : List Row) (nulls : Counters) (clip : ℕ) :
    (processRows a rows nulls clip).2.2 = clip + rows.countP (fun r => clipPred a r) := by
  induction rows generalizing nulls clip with
  | nil => simp [processRows]
  | cons row rest ih =>
    rw [processRows]
    simp only [sanitizeLoop_fst_clist]
    by_cases h : outsideWindow a
        (recenter (Option.getD (sanitizedRow a.null_sub row raKey) 0))
        (Option.getD (sanitizedRow a.null_sub row decKey) 0)
    · have hb : clipPred a row = true := by
        simp only [clipPred, decide_eq_true_eq]; exact h
      rw [if_pos h, ih, List.countP_cons, hb]
      simp only [if_pos]
      omega
    · have hb : clipPred a row = false := by
        simp only [clipPred, decide_eq_false_iff_not]; exact h
      rw [if_neg h]
      simp only [List.countP_cons, hb]
      simpa using ih (sanitizeLoop a.null_sub clist row nulls).2 clip

/-- The final NULL counters of the row loop: for a column of `clist`,
the starting value plus the number of rows (clipped or not) whose value
at that column was NULL; other strings are untouched. -/
theorem processRows_nulls (a : Args) (rows : List Row) (nulls : Counters) (clip : ℕ)
    (c : String) :
    (processRows a rows nulls clip).2.1 c =
      nulls c + (if c ∈ clist then rows.countP (fun r => decide (r c = none)) else 0) := by
  induction rows generalizing nulls clip with
  | nil => simp [processRows]
  | cons row rest ih =>
    rw [processRows]
    simp only [sanitizeLoop_fst_clist]
    have hcnt := sanitizeLoop_snd a.null_sub clist row nulls c
    by_cases h : outsideWindow a
        (recenter (Option.getD (sanitizedRow a.null_sub row raKey) 0))
        (Option.getD (sanitizedRow a.null_sub row decKey) 0)
    · rw [if_pos h, ih ((sanitizeLoop a.null_sub clist row nulls).2) (clip + 1), hcnt]
      simp only [List.countP_cons]
      by_cases hc : c ∈ clist
      · by_cases hr : row c = none
        · have e1 : (if c ∈ clist ∧ row c = none then 1 else 0) = 1 := if_pos ⟨hc, hr⟩
          have e2 : decide (row c = none) = true := decide_eq_true hr
          simp only [e1, e2, if_pos hc, if_true]
          ring
        · have e1 : (if c ∈ clist ∧ row c = none then 1 else 0) = 0 :=
            if_neg (fun hand => hr hand.2)
          have e2 : decide (row c = none) = false := decide_eq_false hr
          simp only [e1, e2, if_pos hc, Bool.false_eq_true, if_false]
          ring
      · have e1 : (if c ∈ clist ∧ row c = none then 1 else 0) = 0 :=
          if_neg (fun hand => hc hand.1)
        simp only [e1, if_neg hc]
    · rw [if_neg h]
      show (processRows a rest (sanitizeLoop a.null_sub clist row nulls).2 clip).2.1 c = _
      rw [ih ((sanitizeLoop a.null_sub clist row nulls).2) clip, hcnt]
      simp only [List.countP_cons]
      by_cases hc : c ∈ clist
      · by_cases hr : row c = none
        · have e1 : (if c ∈ clist ∧ row c = none then 1 else 0) = 1 := if_pos ⟨hc, hr⟩
          have e2 : decide (row c = none) = true := decide_eq_true hr
          simp only [e1, e2, if_pos hc, if_true]
          ring
        · have e1 : (if c ∈ clist ∧ row c = none then 1 else 0) = 0 :=
            if_neg (fun hand => hr hand.2)
          have e2 : decide (row c = none) = false := decide_eq_false hr
          simp only [e1, e2, if_pos hc, Bool.false_eq_true, if_false]
          ring
      · have e1 : (if c ∈ clist ∧ row c = none then 1 else 0) = 0 :=
          if_neg (fun hand => hc hand.1)
        simp only [e1, if_neg hc]

/-- The write events of the row loop: one `writeRow` event per
non-clipped row, in result order, carrying the values of the sanitized
row. -/
theorem processRows_events (a : Args) (rows : List Row) (nulls : Counters) (clip : ℕ) :
    (processRows a rows nulls clip).1 =
      (rows.filter (fun r => !clipPred a r)).map
        (fun r => Event.writeRow (rowValues (sanitizedRow a.null_sub r))) := by
  induction rows generalizing nulls clip with
  | nil => simp [processRows]
  | cons row rest ih =>
    rw [processRows]
    simp only [sanitizeLoop_fst_clist]
    by_cases h : outsideWindow a
        (recenter (Option.getD (sanitizedRow a.null_sub row raKey) 0))
        (Option.getD (sanitizedRow a.null_sub row decKey) 0)
    · have hb : clipPred a row = true := by
        simp only [clipPred, decide_eq_true_eq]; exact h
      rw [if_pos h, ih]
      simp [List.filter_cons, hb]
    · have hb : clipPred a row = false := by
        simp only [clipPred, decide_eq_false_iff_not]; exact h
      rw [if_neg h]
      show Event.writeRow (rowValues (sanitizedRow a.null_sub row)) ::
          (processRows a rest (sanitizeLoop a.null_sub clist row nulls).2 clip).1 = _
      rw [ih ((sanitizeLoop a.null_sub clist row nulls).2) clip]
      simp [List.filter_cons, hb]

/-- Claim C1, counterexample: the header line the program writes is not
the one the claim lists.  The claim (and spec section 8) names the axis
columns `a_b_b a_b_d b_b_b b_b_d`, but `addColumns` applied to the
patterns `a_%s, b_%s` and the types `b, d` produces `a_b,a_d,b_b,b_d`,
so the written header differs from the claimed one. -/
theorem c1_header_counterexample :
    headerLine = "galtileid ra dec redshift fluxnorm_bulge fluxnorm_disk fluxnorm_agn a_b a_d b_b b_d pa_bulge pa_disk u_ab g_ab r_ab i_ab z_ab y_ab" ∧
    headerLine ≠ "galtileid ra dec redshift fluxnorm_bulge fluxnorm_disk fluxnorm_agn a_b_b a_b_d b_b_b b_b_d pa_bulge pa_disk u_ab g_ab r_ab i_ab z_ab y_ab" := by
  constructor
  · decide
  · decide

/-- Claim C1, amended: for every run in which the output file opens and
the window is valid, the first line written to the output file is the
header `galtileid ra dec redshift fluxnorm_bulge fluxnorm_disk
fluxnorm_agn a_b a_d b_b b_d pa_bulge pa_disk u_ab g_ab r_ab i_ab z_ab
y_ab` (space-separated, in column-builder order), and the header write
precedes the query execution in the trace, regardless of whether the
query returns rows (or raises). -/
theorem c1_header_amended (a : Args) (env : Env) (hopen : env.openOk = true)
    (hwin : ¬(a.ra_min ≥ a.ra_max ∨ a.dec_min ≥ a.dec_max)) :
    headerLine = "galtileid ra dec redshift fluxnorm_bulge fluxnorm_disk fluxnorm_agn a_b a_d b_b b_d pa_bulge pa_disk u_ab g_ab r_ab i_ab z_ab y_ab" ∧
    (mainRun a env).trace.take 5 =
      [Event.openOutput, Event.writeHeader headerLine, Event.createEngine,
        Event.createSession, Event.execute] := by
  refine ⟨by decide, ?_⟩
  unfold mainRun
  rw [if_neg (by simp [hopen]), if_neg hwin]
  cases env.queryRows <;> simp

/-- Claim C1 witness: the amended claim at the window `[0,1] x [-1,1]`
with a query returning zero rows. -/
theorem c1_header_witness :
    headerLine = "galtileid ra dec redshift fluxnorm_bulge fluxnorm_disk fluxnorm_agn a_b a_d b_b b_d pa_bulge pa_disk u_ab g_ab r_ab i_ab z_ab y_ab" ∧
    (mainRun argsWin envNoRows).trace.take 5 =
      [Event.openOutput, Event.writeHeader headerLine, Event.createEngine,
        Event.createSession, Event.execute] :=
  c1_header_amended argsWin envNoRows rfl (by decide)

/-- Claim C2, counterexample: on an inverted window (with an openable
output file) the first event of the run is the file open and only the second
is the invalid-window report, so `OpenOutput` precedes `ValidateWindow`
— the claimed order `ValidateWindow` before `OpenOutput` is false. -/
theorem c2_order_counterexample :
    (mainRun argsBadWin envNoRows).trace[0]? = some Event.openOutput ∧
    (mainRun argsBadWin envNoRows).trace[1]? = some Event.invalidWindowMsg := by
  constructor
  · decide
  · decide

/-- Claim C2, amended: for every window with `ra_min ≥ ra_max` or
`dec_min ≥ dec_max` (and an openable output file), the program reports
the invalid window and returns `-2`, performing no database access and
writing neither the header nor any row to the output file; however the
output file is opened (and truncated) before the window is validated —
`OpenOutput` precedes `ValidateWindow` in program order. -/
theorem c2_invalid_window_amended (a : Args) (env : Env) (hopen : env.openOk = true)
    (hwin : a.ra_min ≥ a.ra_max ∨ a.dec_min ≥ a.dec_max) :
    (mainRun a env).trace = [Event.openOutput, Event.invalidWindowMsg] ∧
    (mainRun a env).ret = some (-2) ∧
    (mainRun a env).trace.all (fun e => !isDbEvent e && !isWriteEvent e) = true := by
  have htr : mainRun a env =
      { trace := [Event.openOutput, Event.invalidWindowMsg], ret := some (-2),
        raised := false } := by
    unfold mainRun
    rw [if_neg (by simp [hopen]), if_pos hwin]
  rw [htr]
  exact ⟨rfl, rfl, by decide⟩

/-- Claim C2 witness: the amended claim at the inverted window
`ra_min = 1 > 0 = ra_max`. -/
theorem c2_invalid_window_witness :
    (mainRun argsBadWin envNoRows).trace = [Event.openOutput, Event.invalidWindowMsg] ∧
    (mainRun argsBadWin envNoRows).ret = some (-2) ∧
    (mainRun argsBadWin envNoRows).trace.all
      (fun e => !isDbEvent e && !isWriteEvent e) = true :=
  c2_invalid_window_amended argsBadWin envNoRows rfl (by decide)

/-- Claim C3, counterexample: `main` returns the same value `-2` when
the output file cannot be opened and when the window is invalid (the
claim says the two cases get distinct values), and in both cases the
process exit status is `0`, not non-zero, because lines 142-143 call
`main()` without passing its return value to `sys.exit`. -/
theorem c3_exit_counterexample :
    (mainRun argsWin envNoOpen).ret = some (-2) ∧
    (mainRun argsBadWin envNoRows).ret = some (-2) ∧
    programExit argsWin envNoOpen = 0 ∧
    programExit argsBadWin envNoRows = 0 := by
  refine ⟨by decide, by decide, by decide, by decide⟩

/-- Claim C3, amended: `main` returns `-2` both when the output file
cannot be opened and when the window is invalid (the same value, not
distinct ones); the top-level guard discards the return value of
`main`, so
the process exit status is `0` in every run in which no exception
propagates — including both error returns, zero-row results and
all-clipped results — and non-zero only when the query execution
raises. -/
theorem c3_exit_amended (a : Args) (env : Env) :
    (env.openOk = false → (mainRun a env).ret = some (-2) ∧ programExit a env = 0) ∧
    (env.openOk = true → (a.ra_min ≥ a.ra_max ∨ a.dec_min ≥ a.dec_max) →
      (mainRun a env).ret = some (-2) ∧ programExit a env = 0) ∧
    (∀ rows, env.queryRows = some rows → programExit a env = 0) ∧
    (env.openOk = true → ¬(a.ra_min ≥ a.ra_max ∨ a.dec_min ≥ a.dec_max) →
      env.queryRows = none → programExit a env = 1) := by
  refine ⟨?_, ?_, ?_, ?_⟩
  · intro hopen
    unfold programExit mainRun
    rw [if_pos hopen]
    simp [hopen]
  · intro hopen hwin
    unfold programExit mainRun
    rw [if_neg (by simp [hopen]), if_pos hwin]
    simp
  · intro rows hrows
    unfold programExit mainRun
    by_cases hopen : env.openOk = false
    · simp [hopen]
    · rw [if_neg hopen]
      by_cases hwin : a.ra_min ≥ a.ra_max ∨ a.dec_min ≥ a.dec_max
      · rw [if_pos hwin]
        rfl
      · rw [if_neg hwin, hrows]
        rfl
  · intro hopen hwin hnone
    unfold programExit
    have hm : mainRun a env =
        { trace := [Event.openOutput, Event.writeHeader headerLine, Event.createEngine,
            Event.createSession, Event.execute, Event.closeSession, Event.disposeEngine],
          ret := none, raised := true } := by
      unfold mainRun
      rw [if_neg (by simp [hopen]), if_neg hwin, hnone]
    rw [hm]
    rfl

/-- Claim C3 witness: the amended claim on a failed output-file open. -/
theorem c3_exit_witness :
    (mainRun argsWin envNoOpen).ret = some (-2) ∧ programExit argsWin envNoOpen = 0 :=
  (c3_exit_amended argsWin envNoOpen).1 rfl

/-- Claim C4: a result row is discarded — the clip counter grows and no
output line is written — exactly when its (sanitized) recentered right
ascension or raw declination falls strictly outside the window: over
any result set, the final clip count is the starting count plus the
number of rows satisfying the strict out-of-window disjunction, the
write events are precisely the remaining rows in order, and the clip
test is the disjunction `ra < ra_min ∨ ra > ra_max ∨ dec < dec_min ∨
dec > dec_max` applied to `recenter ra` (which is `ra - 360` when
`ra > 180`, else `ra`). -/
theorem c4_clip_rule (a : Args) (rows : List Row) (nulls : Counters) (clip : ℕ) :
    (processRows a rows nulls clip).2.2 = clip + rows.countP (fun r => clipPred a r) ∧
    (processRows a rows nulls clip).1 =
      (rows.filter (fun r => !clipPred a r)).map
        (fun r => Event.writeRow (rowValues (sanitizedRow a.null_sub r))) ∧
    (∀ r : Row, clipPred a r = true ↔
      (recenter (Option.getD (sanitizedRow a.null_sub r raKey) 0) < a.ra_min ∨
       recenter (Option.getD (sanitizedRow a.null_sub r raKey) 0) > a.ra_max ∨
       Option.getD (sanitizedRow a.null_sub r decKey) 0 < a.dec_min ∨
       Option.getD (sanitizedRow a.null_sub r decKey) 0 > a.dec_max)) ∧
    (∀ x : ℚ, recenter x = if x > 180 then x - 360 else x) :=
  ⟨processRows_clip a rows nulls clip, processRows_events a rows nulls clip,
   fun r => by simp [clipPred], fun x => rfl⟩

/-- Claim C5: for every column of the column list, a NULL value is
replaced by the `--null-sub` value and the counter of that column grows by
exactly one per NULL (the dict entry created at zero being modelled by
the counter function defaulting to zero); after processing a result
set, the counter of each column equals the number of rows whose value at
that column was NULL. -/
theorem c5_null_substitution (a : Args) (rows : List Row) (nulls : Counters) (clip : ℕ)
    (c : String) (hc : c ∈ clist) :
    (∀ row : Row,
      (sanitizeLoop a.null_sub clist row nulls).1 c =
        (if row c = none then some a.null_sub else row c) ∧
      (sanitizeLoop a.null_sub clist row nulls).2 c =
        nulls c + (if row c = none then 1 else 0)) ∧
    (processRows a rows nulls clip).2.1 c =
      nulls c + rows.countP (fun r => decide (r c = none)) := by
  constructor
  · intro row
    constructor
    · rw [sanitizeLoop_fst]
      by_cases hr : row c = none <;> simp [hr, hc]
    · rw [sanitizeLoop_snd]
      by_cases hr : row c = none <;> simp [hr, hc]
  · rw [processRows_nulls, if_pos hc]

/-- Claim C5 witness: with `--null-sub=-7`, a NULL `redshift` is
replaced by `-7`, and two rows with NULL `redshift` drive the counter
of that column to `2`. -/
theorem c5_null_substitution_witness :
    (sanitizeLoop (-7) clist rowNullZ (fun _ => 0)).1 redshiftKey = some (-7) ∧
    (processRows argsSub7 [rowNullZ, rowNullZ] (fun _ => 0) 0).2.1 redshiftKey =
      (fun _ => 0) redshiftKey +
        [rowNullZ, rowNullZ].countP (fun r => decide (r redshiftKey = none)) ∧
    [rowNullZ, rowNullZ].countP (fun r => decide (r redshiftKey = none)) = 2 := by
  have h := c5_null_substitution argsSub7 [rowNullZ, rowNullZ] (fun _ => 0) 0
    redshiftKey (by decide)
  exact ⟨by decide, h.2, by decide⟩

/-- Claim C6: for every valid window, the radius passed to the stored
procedure is `30 * sqrt((ra_max - ra_min)^2 + (dec_max - dec_min)^2)`
arc-minutes (the code computes `60 * 0.5 * sqrt(...)`). -/
theorem c6_radius (ra_min ra_max dec_min dec_max : ℝ)
    (h1 : ra_min < ra_max) (h2 : dec_min < dec_max) :
    radius ra_min ra_max dec_min dec_max =
      30 * Real.sqrt ((ra_max - ra_min) ^ 2 + (dec_max - dec_min) ^ 2) := by
  unfold radius
  norm_num

/-- Claim C6 witness: the radius identity at the valid window
`[0,1] x [0,1]`. -/
theorem c6_radius_witness :
    (0 : ℝ) < 1 ∧
    radius 0 1 0 1 = 30 * Real.sqrt ((1 - 0) ^ 2 + (1 - 0) ^ 2) :=
  ⟨zero_lt_one, c6_radius 0 1 0 1 zero_lt_one zero_lt_one⟩

/-- Claim C7: the query invokes the fixed stored procedure
`GalaxySearchSpecColsConstraint2013` with `RaSearch` and `DecSearch`
the window midpoints, `apertureRadius` the computed radius,
`ColumnNames` the comma-join of the column list with `galtileid`
removed, and an empty `WhereClause`. -/
theorem c7_query_params (ra_min ra_max dec_min dec_max : ℝ) :
    query ra_min ra_max dec_min dec_max =
      { procName := "GalaxySearchSpecColsConstraint2013",
        RaSearch := (ra_min + ra_max) / 2,
        DecSearch := (dec_min + dec_max) / 2,
        apertureRadius := radius ra_min ra_max dec_min dec_max,
        ColumnNames := pyJoin commaS (clist.erase gtidS),
        WhereClause := "" } := by
  unfold query
  simp only [QueryCall.mk.injEq]
  refine ⟨trivial, by ring, by ring, trivial, by decide, by decide⟩

/-- Claim C8: on every run that reaches the query stage, whether the
query succeeds or raises, the trace ends with the session close and the
engine disposal — followed by the file close only on the success path —
so both resources are released before any error propagates or the
program exits. -/
theorem c8_cleanup (a : Args) (env : Env) (hopen : env.openOk = true)
    (hwin : ¬(a.ra_min ≥ a.ra_max ∨ a.dec_min ≥ a.dec_max)) :
    (mainRun a env).trace =
      preCleanupTrace a env ++ [Event.closeSession, Event.disposeEngine] ++
        (if (mainRun a env).raised then [] else [Event.closeFile]) := by
  unfold mainRun preCleanupTrace
  rw [if_neg (by simp [hopen]), if_neg hwin]
  cases env.queryRows <;> simp

/-- Claim C8 witness: the cleanup shape on a run whose query execution
raises. -/
theorem c8_cleanup_witness :
    (mainRun argsWin envRaise).trace =
      preCleanupTrace argsWin envRaise ++ [Event.closeSession, Event.disposeEngine] ++
        (if (mainRun argsWin envRaise).raised then [] else [Event.closeFile]) :=
  c8_cleanup argsWin envRaise rfl (by decide)

/-- Claim C9: recentering only affects the clip decision — for every
retained row the emitted line carries the values of the sanitized row
unchanged, and in particular position 1 of the line (the `ra` column)
holds the sanitized `ra` exactly as returned by the query, not the
recentered value. -/
theorem c9_ra_unmodified (a : Args) (row : Row) (nulls : Counters) (clip : ℕ)
    (h : ¬ outsideWindow a
      (recenter (Option.getD (sanitizedRow a.null_sub row raKey) 0))
      (Option.getD (sanitizedRow a.null_sub row decKey) 0)) :
    (processRows a [row] nulls clip).1 =
      [Event.writeRow (rowValues (sanitizedRow a.null_sub row))] ∧
    (rowValues (sanitizedRow a.null_sub row))[1]? =
      some (Option.getD (sanitizedRow a.null_sub row raKey) 0) := by
  constructor
  · rw [processRows_events]
    have hb : clipPred a row = false := by
      simp only [clipPred, decide_eq_false_iff_not]; exact h
    simp [List.filter_cons, hb]
  · unfold rowValues
    rw [List.getElem?_map]
    have h1 : clist[1]? = some raKey := by decide
    rw [h1]
    rfl

/-- Claim C9 witness: a row with `ra = 182` in the window
`[-179,-177] x [-1,1]` is retained because its recentered `ra` is
`-178`, yet the output line still carries `182` at the `ra` position. -/
theorem c9_ra_unmodified_witness :
    (processRows argsWrap [rowWrap] (fun _ => 0) 0).1 =
      [Event.writeRow (rowValues (sanitizedRow argsWrap.null_sub rowWrap))] ∧
    (rowValues (sanitizedRow argsWrap.null_sub rowWrap))[1]? = some 182 := by
  have hra : sanitizedRow argsWrap.null_sub rowWrap raKey = some 182 := by decide
  have hdec : sanitizedRow argsWrap.null_sub rowWrap decKey = some 0 := by decide
  have hrec : recenter 182 = -178 := by norm_num [recenter]
  have h : ¬ outsideWindow argsWrap
      (recenter (Option.getD (sanitizedRow argsWrap.null_sub rowWrap raKey) 0))
      (Option.getD (sanitizedRow argsWrap.null_sub rowWrap decKey) 0) := by
    rw [hra, hdec]
    show ¬ outsideWindow argsWrap (recenter 182) 0
    rw [hrec]
    decide
  have hc := c9_ra_unmodified argsWrap rowWrap (fun _ => 0) 0 h
  refine ⟨hc.1, ?_⟩
  rw [hc.2, hra]
  rfl

/-- Claim C10: NULL substitution runs before the clip check — the NULL
counters grow even for a row that is then clipped, and a NULL `ra` or
`dec` enters the clip comparison as the `--null-sub` value. -/
theorem c10_sanitize_before_clip (a : Args) (row : Row) (nulls : Counters) (clip : ℕ)
    (c : String) (hc : c ∈ clist) (hnull : row c = none) :
    (processRows a [row] nulls clip).2.1 c = nulls c + 1 ∧
    ((processRows a [row] nulls clip).2.2 = clip + 1 ↔
      outsideWindow a (recenter (Option.getD (row raKey) a.null_sub))
        (Option.getD (row decKey) a.null_sub)) := by
  have hkey : ∀ k, k ∈ clist →
      Option.getD (sanitizedRow a.null_sub row k) 0 = Option.getD (row k) a.null_sub := by
    intro k hk
    unfold sanitizedRow
    cases hrk : row k with
    | none => simp [hk]
    | some v => simp [hk, hrk]
  constructor
  · rw [processRows_nulls, if_pos hc]
    simp [List.countP_cons, hnull]
  · rw [processRows_clip]
    have h1 := hkey raKey (by decide)
    have h2 := hkey decKey (by decide)
    have hiff : clipPred a row = true ↔
        outsideWindow a (recenter (Option.getD (row raKey) a.null_sub))
          (Option.getD (row decKey) a.null_sub) := by
      rw [clipPred, h1, h2, decide_eq_true_eq]
    rw [List.countP_cons, List.countP_nil]
    by_cases hb : clipPred a row = true
    · rw [hb]
      simp [hiff.mp hb]
    · have hb2 : clipPred a row = false := by
        cases hq : clipPred a row
        · rfl
        · exact absurd hq hb
      rw [hb2]
      simp only [Bool.false_eq_true, if_false, Nat.add_zero, Nat.zero_add]
      constructor
      · intro hcontra
        omega
      · intro hout
        exact absurd (hiff.mpr hout) hb

/-- Claim C10 witness: a row with NULL `ra` under `--null-sub=-1` and
window `[0,1] x [-1,1]` — the substituted `ra = -1` lies outside the
window, the row is clipped, and the `ra` NULL counter still grows to
one. -/
theorem c10_sanitize_before_clip_witness :
    (processRows argsWin [rowNullRa] (fun _ => 0) 0).2.1 raKey = (fun _ => 0) raKey + 1 ∧
    (processRows argsWin [rowNullRa] (fun _ => 0) 0).2.2 = 0 + 1 := by
  have h := c10_sanitize_before_clip argsWin rowNullRa (fun _ => 0) 0 raKey
    (by decide) (by decide)
  exact ⟨h.1, h.2.mpr (by decide)⟩
